import Mathlib

/-!
Verification development for the news-retrieval MCP server (`main.py`).

The embedding models the pure computational core of the program:
the retry-wrapped HTTP client `make_request_with_retry`, the article
content extraction cascade `extract_article_content`, the result
normalizers `extract_publisher` and `format_date`, and the three
keyword tools `search_news`, `search_news_with_content` and
`compare_news_perspectives`.

External collaborators (the network, `httpx`, `BeautifulSoup`,
`urllib.parse`, `datetime`, `asyncio.gather`) are modelled explicitly:
network attempts become an oracle `Nat → Attempt α` giving the outcome
of each successive GET, a parsed HTML document becomes a `Soup` record
holding the results of the exact CSS queries the code performs, and
Python string builtins (`split`, `strip`, `replace`, `join`, slicing,
`re.sub(r'\s+', ' ', ·)`) are re-implemented over `List Char` with the
same semantics, using structural recursion so that every definition
evaluates by `decide`/`rfl`.
-/

/-- Constant `MAX_RETRIES = 3` from the source. -/
def MAX_RETRIES : Nat := 3

/-- Constant `MAX_CONTENT_LENGTH = 1000` from the source. -/
def MAX_CONTENT_LENGTH : Nat := 1000

/-- Model of the character class `\s` of Python's `re` (ASCII part) and of
the default strip set of `str.strip()`. -/
def charWs (c : Char) : Bool :=
  c == ' ' || c == '\t' || c == '\n' || c == '\r' || c == '\x0b' || c == '\x0c'

/-- Literal-prefix test over char lists (used to model Python substring scans). -/
def isPreOf : List Char → List Char → Bool
  | [], _ => true
  | _ :: _, [] => false
  | p :: ps, c :: cs => p == c && isPreOf ps cs

/-- Model of Python's `sub in s` substring test (for a non-empty needle). -/
def hasOcc (sep : List Char) : List Char → Bool
  | [] => sep.isEmpty
  | c :: rest => isPreOf sep (c :: rest) || hasOcc sep rest

/-- Fuel-indexed worker for `pySplit`; the fuel starts at the length of the
scanned list, which each step strictly decreases, so the fuel never runs
out on the actual calls. -/
def splitAux (sep : List Char) : Nat → List Char → List (List Char)
  | 0, cs => [cs]
  | fuel + 1, cs =>
    match cs with
    | [] => [[]]
    | c :: rest =>
      if isPreOf sep cs then
        [] :: splitAux sep fuel (cs.drop sep.length)
      else
        match splitAux sep fuel rest with
        | [] => [[c]]
        | p :: ps => (c :: p) :: ps

/-- Model of Python's `s.split(sep)` for a non-empty separator. -/
def pySplit (sep cs : List Char) : List (List Char) :=
  splitAux sep cs.length cs

/-- Model of Python's `sep.join(pieces)`. -/
def joinSep (sep : List Char) : List (List Char) → List Char
  | [] => []
  | [x] => x
  | x :: xs => x ++ sep ++ joinSep sep xs

/-- Model of Python's `s.strip()` (drop leading and trailing whitespace). -/
def trimChars (cs : List Char) : List Char :=
  ((cs.dropWhile charWs).reverse.dropWhile charWs).reverse

/-- Worker modelling `re.sub(r'\s+', ' ', ·)`: every maximal run of
whitespace becomes a single space; the flag records whether we are inside
a run. -/
def subWsAux : List Char → Bool → List Char
  | [], _ => []
  | c :: rest, inRun =>
    if charWs c then
      if inRun then subWsAux rest true else ' ' :: subWsAux rest true
    else c :: subWsAux rest false

/-- Decimal digit test on a character. -/
def isDigitC (c : Char) : Bool :=
  Nat.ble 48 c.toNat && Nat.ble c.toNat 57

/-- Numeric value of a decimal digit character. -/
def digitVal (c : Char) : Nat := c.toNat - 48

/-- Decimal digit character for a value below ten (the default branch is
never reached on the actual calls, and also yields a digit). -/
def digitChar : Nat → Char
  | 0 => '0' | 1 => '1' | 2 => '2' | 3 => '3' | 4 => '4'
  | 5 => '5' | 6 => '6' | 7 => '7' | 8 => '8' | 9 => '9'
  | _ => '0'

/-- Fuel-indexed decimal digits of a natural number, most significant
first; fuel `n + 1` always suffices. -/
def natDigitsAux : Nat → Nat → List Char
  | 0, _ => []
  | fuel + 1, n =>
    if n < 10 then [digitChar n]
    else natDigitsAux fuel (n / 10) ++ [digitChar (n % 10)]

/-- Decimal digits of a natural number (model of Python `str(n)` for `Nat`). -/
def natDigits (n : Nat) : List Char := natDigitsAux (n + 1) n

/-- Left-pad a digit list with zeros to the given width (model of
`strftime` zero padding). -/
def padZeros (width : Nat) (l : List Char) : List Char :=
  List.replicate (width - l.length) '0' ++ l

/-- Model of Python `str(n)` for a natural number. -/
def pyStr (n : Nat) : String := String.mk (natDigits n)

/-- Model of Python's `sub in s` at the `String` level. -/
def containsPy (s sub : String) : Bool := hasOcc sub.data s.data

/-- Model of Python's `s.split(sep)` at the `String` level. -/
def splitPy (s sep : String) : List String :=
  (pySplit sep.data s.data).map String.mk

/-- Model of Python's `s.replace(old, new)` (replaces every occurrence). -/
def replacePy (s old new : String) : String :=
  String.mk (joinSep new.data (pySplit old.data s.data))

/-- Model of Python's `sep.join(xs)` at the `String` level. -/
def joinPy (sep : String) (xs : List String) : String :=
  String.mk (joinSep sep.data (xs.map String.data))

/-- Model of Python's `s.strip()` at the `String` level. -/
def stripPy (s : String) : String := String.mk (trimChars s.data)

/-- Model of Python's slice `s[:n]`. -/
def pyTakeStr (s : String) (n : Nat) : String := String.mk (s.data.take n)

/-- The guard `not keyword or keyword.strip() == ""` shared by the
keyword tools. -/
def kwBlank (s : String) : Bool := s == "" || stripPy s == ""

/-- Title sanitization `.replace("<b>", "").replace("</b>", "")`. -/
def stripBold (t : String) : String :=
  replacePy (replacePy t "<b>" "") "</b>" ""

/-- Modelled from the Python standard library: `urlparse(url).netloc` for
the absolute `scheme://host/...` URLs this service handles; a string with
no `"://"` gets an empty netloc, as `urlparse` gives for scheme-less input. -/
def netloc (url : String) : String :=
  match pySplit "://".data url.data with
  | _ :: rest :: _ =>
    String.mk (rest.takeWhile (fun c => !(c == '/' || c == '?' || c == '#')))
  | _ => ""

/-- One raw record of the upstream search API; absent JSON fields are `none`
(the code reads each with `item.get(key, default)`). -/
structure Item where
  title : Option String
  link : Option String
  description : Option String
  pubDate : Option String
deriving DecidableEq, Repr

/-- Embedding of `extract_publisher` (`main.py` lines 98-122). -/
def extract_publisher (item : Item) : String :=
  let title := item.title.getD ""
  let description := item.description.getD ""
  if containsPy title " - " then
    stripPy ((splitPy title " - ").getLastD "")
  else
    let link := item.link.getD ""
    if link != "" then
      let domain := netloc link
      if containsPy domain "news.naver.com" then
        if containsPy description "출처 : " then
          stripPy ((splitPy description "출처 : ").getD 1 "")
        else replacePy domain "www." ""
      else replacePy domain "www." ""
    else "알 수 없는 언론사"

/-- The fields of a parsed timestamp that the reformatting uses. -/
structure PyDateTime where
  year : Nat
  month : Nat
  day : Nat
  hour : Nat
  minute : Nat
deriving DecidableEq, Repr

/-- Strip a literal off the front of a char list, or fail. -/
def stripLit : List Char → List Char → Option (List Char)
  | [], cs => some cs
  | _ :: _, [] => none
  | p :: ps, c :: cs => if p == c then stripLit ps cs else none

/-- Try each literal alternative in order (model of a regex alternation). -/
def tryLits : List (List Char) → List Char → Option (List Char)
  | [], _ => none
  | w :: ws, cs =>
    match stripLit w cs with
    | some rest => some rest
    | none => tryLits ws cs

/-- Try each valued literal alternative in order. -/
def tryLitsVal : List (List Char × Nat) → List Char → Option (Nat × List Char)
  | [], _ => none
  | (w, v) :: ws, cs =>
    match stripLit w cs with
    | some rest => some (v, rest)
    | none => tryLitsVal ws cs

/-- Parse one or two decimal digits, greedily. -/
def parseNum12 : List Char → Option (Nat × List Char)
  | [] => none
  | c :: cs =>
    if isDigitC c then
      match cs with
      | c2 :: cs2 =>
        if isDigitC c2 then some (digitVal c * 10 + digitVal c2, cs2)
        else some (digitVal c, cs)
      | [] => some (digitVal c, [])
    else none

/-- Parse exactly four decimal digits. -/
def parseNum4 : List Char → Option (Nat × List Char)
  | a :: b :: c :: d :: rest =>
    if isDigitC a && isDigitC b && isDigitC c && isDigitC d then
      some (((digitVal a * 10 + digitVal b) * 10 + digitVal c) * 10 + digitVal d, rest)
    else none
  | _ => none

/-- Parse a `%z` UTC offset: `Z`, or a sign followed by `HHMM` with an
optional colon. -/
def parseTz : List Char → Option (List Char)
  | 'Z' :: rest => some rest
  | c :: rest =>
    if c == '+' || c == '-' then
      match rest with
      | a :: b :: r2 =>
        if isDigitC a && isDigitC b then
          match r2 with
          | ':' :: c2 :: d2 :: r3 =>
            if isDigitC c2 && isDigitC d2 then some r3 else none
          | c2 :: d2 :: r3 =>
            if isDigitC c2 && isDigitC d2 then some r3 else none
          | _ => none
        else none
      | _ => none
    else none
  | [] => none

/-- Gregorian leap-year test. -/
def leapYear (y : Nat) : Bool :=
  y % 4 == 0 && (y % 100 != 0 || y % 400 == 0)

/-- Number of days of a month (as `datetime` validates them). -/
def daysInMonth (y m : Nat) : Nat :=
  if m == 2 then (if leapYear y then 29 else 28)
  else if m == 4 || m == 6 || m == 9 || m == 11 then 30
  else 31

/-- The seven abbreviated weekday names matched by `%a`. -/
def weekdayLits : List (List Char) :=
  ["Mon".data, "Tue".data, "Wed".data, "Thu".data, "Fri".data, "Sat".data, "Sun".data]

/-- The twelve abbreviated month names matched by `%b`, with their numbers. -/
def monthLits : List (List Char × Nat) :=
  [("Jan".data, 1), ("Feb".data, 2), ("Mar".data, 3), ("Apr".data, 4),
   ("May".data, 5), ("Jun".data, 6), ("Jul".data, 7), ("Aug".data, 8),
   ("Sep".data, 9), ("Oct".data, 10), ("Nov".data, 11), ("Dec".data, 12)]

/-- The time-of-day and offset part of the timestamp parse; the final
checks model the range validation of the regex and of the `datetime`
constructor. -/
def parseTimePart (y m d : Nat) (cs7 : List Char) : Option PyDateTime :=
  match parseNum12 cs7 with
  | none => none
  | some (hh, cs8) =>
    match stripLit [':'] cs8 with
    | none => none
    | some cs9 =>
      match parseNum12 cs9 with
      | none => none
      | some (mi, cs10) =>
        match stripLit [':'] cs10 with
        | none => none
        | some cs11 =>
          match parseNum12 cs11 with
          | none => none
          | some (ss, cs12) =>
            match stripLit [' '] cs12 with
            | none => none
            | some cs13 =>
              match parseTz cs13 with
              | none => none
              | some cs14 =>
                if 1 ≤ y ∧ 1 ≤ d ∧ d ≤ daysInMonth y m ∧ hh ≤ 23 ∧
                    mi ≤ 59 ∧ ss ≤ 59 ∧ cs14.isEmpty = true then
                  some { year := y, month := m, day := d, hour := hh, minute := mi }
                else none

/-- The date part of the timestamp parse after the weekday has been
consumed. -/
def parseAfterWeekday (cs0 : List Char) : Option PyDateTime :=
  match stripLit [',', ' '] cs0 with
  | none => none
  | some cs1 =>
    match parseNum12 cs1 with
    | none => none
    | some (d, cs2) =>
      match stripLit [' '] cs2 with
      | none => none
      | some cs3 =>
        match tryLitsVal monthLits cs3 with
        | none => none
        | some (m, cs4) =>
          match stripLit [' '] cs4 with
          | none => none
          | some cs5 =>
            match parseNum4 cs5 with
            | none => none
            | some (y, cs6) =>
              match stripLit [' '] cs6 with
              | none => none
              | some cs7 => parseTimePart y m d cs7

/-- Modelled from the Python standard library:
`datetime.strptime(s, '%a, %d %b %Y %H:%M:%S %z')`, returning `none` where
`strptime` (or the `datetime` constructor) raises.  Abbreviated names are
matched case-sensitively and the `%z` offset in its common forms; both are
immaterial for the upstream API's fixed timestamp shape. -/
def parseNaverDate (s : String) : Option PyDateTime :=
  match tryLits weekdayLits s.data with
  | none => none
  | some rest => parseAfterWeekday rest

/-- The characters of the reformatted timestamp after the year. -/
def formatTail (dt : PyDateTime) : List Char :=
  '-' :: (padZeros 2 (natDigits dt.month) ++ '-' ::
    (padZeros 2 (natDigits dt.day) ++ ' ' ::
      (padZeros 2 (natDigits dt.hour) ++ ':' :: padZeros 2 (natDigits dt.minute))))

/-- Modelled from the Python standard library:
`dt.strftime('%Y-%m-%d %H:%M')` with zero padding. -/
def formatDT (dt : PyDateTime) : String :=
  String.mk (padZeros 4 (natDigits dt.year) ++ formatTail dt)

/-- Embedding of `format_date` (`main.py` lines 124-136): reformats a
timestamp of the upstream API's fixed format, and returns the input
unchanged when parsing fails. -/
def format_date (date_str : String) : String :=
  match parseNaverDate date_str with
  | some dt => formatDT dt
  | none => date_str

/-- The failure classes `make_request_with_retry` can raise:
`httpx.TimeoutException`, `httpx.HTTPStatusError` (with the status code,
raised by `raise_for_status` on a non-2xx response), and any other
transport-level error (`httpx.RequestError` etc.). -/
inductive Failure where
  | timeout : Failure
  | status : Nat → Failure
  | network : Failure
deriving DecidableEq, Repr

/-- Outcome of one GET attempt: a successful (2xx after redirects)
response with payload `α`, or a raised failure. -/
inductive Attempt (α : Type) where
  | ok : α → Attempt α
  | fail : Failure → Attempt α
deriving DecidableEq, Repr

/-- Which failures the loop retries: timeouts and transport errors always,
HTTP status errors only for 429 or 5xx (`main.py` line 87). -/
def retryableFailure : Failure → Bool
  | .timeout => true
  | .status code => code == 429 || decide (500 ≤ code)
  | .network => true

/-- An attempt after which the loop would retry (when tries remain). -/
def retryAttempt {α : Type} : Attempt α → Bool
  | .ok _ => false
  | .fail f => retryableFailure f

/-- The `for attempt in range(max_retries)` loop of
`make_request_with_retry`, indexed by the remaining iteration count
(`attempt + remaining = max_retries`); `sleeps` counts the
`asyncio.sleep(RETRY_DELAY)` calls made before re-attempting.
Falling off the loop (only possible for `max_retries = 0`) returns
Python's implicit `None`, modelled as `none`. -/
def reqLoop {α : Type} (backend : Nat → Attempt α) (attempt sleeps : Nat) :
    Nat → Option (Except Failure α × Nat × Nat)
  | 0 => none
  | remaining + 1 =>
    match backend attempt with
    | .ok r => some (.ok r, attempt + 1, sleeps)
    | .fail f =>
      if retryableFailure f && decide (0 < remaining) then
        reqLoop backend (attempt + 1) (sleeps + 1) remaining
      else
        some (.error f, attempt + 1, sleeps)

/-- Embedding of `make_request_with_retry` (`main.py` lines 65-96) against
an oracle giving each attempt's outcome.  Returns the surfaced result
together with the number of attempts made and the number of fixed-delay
sleeps taken between attempts. -/
def make_request_with_retry {α : Type} (backend : Nat → Attempt α)
    (max_retries : Nat) : Option (Except Failure α × Nat × Nat) :=
  reqLoop backend 0 0 max_retries

/-- Modelled from the spec: the `str(e)` rendering of a raised `httpx`
exception, used when a tool interpolates the exception into its message. -/
def failureText : Failure → String
  | .timeout => "Request timeout"
  | .status code => "HTTP status error " ++ pyStr code
  | .network => "Network connection error"

/-- The results of the CSS queries `extract_article_content` performs on a
parsed document: `naverBody` is the text of
`select_one('#articleBodyContents, #articeBody, #newsEndContents, .news_end')`
after its `script, style, .end_photo_org, .reporter_area` sub-elements are
removed (with `get_text(strip=True)`); `genericBodies` are the texts of the
`article, main, .article, .content, .news-content` matches; `paragraphs`
are the stripped texts of the `p` elements. -/
structure Soup where
  naverBody : Option String
  genericBodies : List String
  paragraphs : List String
deriving DecidableEq, Repr

/-- The whitespace normalization `re.sub(r'\s+', ' ', content).strip()`. -/
def normalizeWs (s : String) : String :=
  String.mk (trimChars (subWsAux s.data false))

/-- The truncation `content[:MAX_CONTENT_LENGTH] + ("..." if
len(content) > MAX_CONTENT_LENGTH else "")`. -/
def truncateContent (s : String) : String :=
  pyTakeStr s MAX_CONTENT_LENGTH ++
    (if MAX_CONTENT_LENGTH < s.length then "..." else "")

/-- The post-processing every successful strategy applies. -/
def postProcess (t : String) : String := truncateContent (normalizeWs t)

/-- The non-Naver part of the cascade (strategies 2 and 3 and the
sentinel); the Naver branch falls through to it when its selector finds
no element. -/
def extractGeneric (soup : Soup) : String :=
  match soup.genericBodies with
  | t :: _ => postProcess t
  | [] =>
    match soup.paragraphs with
    | [] => "본문 내용을 추출할 수 없습니다."
    | p :: ps =>
      postProcess (joinPy " " ((p :: ps).filter (fun q => decide (50 < q.length))))

/-- Embedding of `extract_article_content` (`main.py` lines 138-182): the
fetch+parse step is the `Except` argument (its `error` is the `str(e)` of
an exception caught at the function's boundary), and the cascade runs on
the parsed `Soup`. -/
def extract_article_content (url : String) (fetched : Except String Soup) : String :=
  match fetched with
  | .error e => "기사 내용 추출 실패: " ++ e
  | .ok soup =>
    if containsPy url "news.naver.com" then
      match soup.naverBody with
      | some t => postProcess t
      | none => extractGeneric soup
    else extractGeneric soup

/-- The distinctions `search_news` draws on the search response body:
`invalidJson` models a `json.JSONDecodeError` (payload: its `str`),
`notDict` a JSON value that is not an object (payload: the `str` of the
error raised when it is used as one), `noItems` an object without an
`"items"` field, and `items` the items list plus the optional
`"total"` field. -/
inductive ParsedBody where
  | invalidJson : String → ParsedBody
  | notDict : String → ParsedBody
  | noItems : ParsedBody
  | items : List Item → Option Nat → ParsedBody
deriving DecidableEq, Repr

/-- One numbered block of `search_news` output (`main.py` lines 250-255). -/
def newsBlock (i : Nat) (item : Item) : String :=
  pyStr (i + 1) ++ ". [언론사] " ++ extract_publisher item ++
    "\n   [제목] " ++ stripBold (item.title.getD "제목 없음") ++
    "\n   [시간] " ++ format_date (item.pubDate.getD "날짜 정보 없음") ++
    "\n   [링크] " ++ item.link.getD "#"

/-- The `for i, item in enumerate(data["items"])` loop building the blocks. -/
def newsBlocksAux (i : Nat) : List Item → List String
  | [] => []
  | it :: rest => newsBlock i it :: newsBlocksAux (i + 1) rest

/-- All numbered blocks of `search_news` output. -/
def newsBlocks (items : List Item) : List String := newsBlocksAux 0 items

/-- One numbered block of `search_news_with_content` output
(`main.py` lines 377-383). -/
def contentBlock (i : Nat) (item : Item) (content : String) : String :=
  pyStr (i + 1) ++ ". [언론사] " ++ extract_publisher item ++
    "\n   [제목] " ++ stripBold (item.title.getD "제목 없음") ++
    "\n   [시간] " ++ format_date (item.pubDate.getD "날짜 정보 없음") ++
    "\n   [링크] " ++ item.link.getD "#" ++
    "\n   [본문]\n" ++ content

/-- The task list built in item order and run through `asyncio.gather`,
which returns the results in the order of its argument list (not in
completion order). -/
def gatherContents (extractFn : String → String) (items : List Item) : List String :=
  items.map (fun it => extractFn (it.link.getD "#"))

/-- The `for i, (item, content) in enumerate(zip(data["items"], contents))`
loop building the blocks. -/
def contentBlocksAux (i : Nat) : List (Item × String) → List String
  | [] => []
  | (it, c) :: rest => contentBlock i it c :: contentBlocksAux (i + 1) rest

/-- All numbered blocks of `search_news_with_content` output. -/
def contentBlocks (items : List Item) (extractFn : String → String) : List String :=
  contentBlocksAux 0 (items.zip (gatherContents extractFn items))

/-- Embedding of the `search_news` tool (`main.py` lines 184-294): the
network is the attempt oracle, and the returned `Nat` counts the GET
attempts made (0 when the keyword is rejected before any network call).
The `none` case of the retry wrapper cannot arise for `MAX_RETRIES = 3`;
in Python it would surface through the outer catch-all. -/
def search_news (keyword : String) (backend : Nat → Attempt ParsedBody) : String × Nat :=
  if kwBlank keyword then ("검색어를 입력해주세요.", 0)
  else
    let kw := stripPy keyword
    match make_request_with_retry backend MAX_RETRIES with
    | none => ("뉴스 검색 중 예상치 못한 오류가 발생했습니다: NoneType", 0)
    | some (.error .timeout, att, _) =>
      ("검색 중 시간 초과가 발생했습니다. 잠시 후 다시 시도해 주세요.", att)
    | some (.error (.status code), att, _) =>
      (if code == 401 || code == 403 then "API 인증에 실패했습니다. API 키를 확인해 주세요."
       else if code == 429 then "너무 많은 요청을 보냈습니다. 잠시 후 다시 시도해 주세요."
       else if decide (500 ≤ code) then "서버 오류가 발생했습니다. 잠시 후 다시 시도해 주세요."
       else "검색 중 오류가 발생했습니다 (HTTP " ++ pyStr code ++ ")", att)
    | some (.error .network, att, _) =>
      ("네트워크 연결 문제가 발생했습니다. 인터넷 연결을 확인해 주세요.", att)
    | some (.ok body, att, _) =>
      match body with
      | .invalidJson _ => ("검색 결과를 처리하는 중 오류가 발생했습니다: 잘못된 응답 형식", att)
      | .notDict _ => ("검색 결과를 처리하는 중 오류가 발생했습니다: 예상치 못한 응답 형식", att)
      | .noItems => ("검색 결과를 처리하는 중 오류가 발생했습니다: 항목을 찾을 수 없음", att)
      | .items its total =>
        match its with
        | [] => ("'" ++ kw ++ "'에 대한 검색 결과가 없습니다.", att)
        | _ :: _ =>
          ("\"" ++ kw ++ "\"에 관한 뉴스 " ++ pyStr (total.getD its.length) ++
             "건 중 " ++ pyStr its.length ++ "건을 찾았습니다.\n\n" ++
             joinPy "\n\n" (newsBlocks its) ++
             "\n\n이 뉴스들의 맥락과 주요 내용을 분석해주세요. 다음 사항에 대해 알려주세요:\n1. 제목들의 공통 주제\n2. 주요 키워드 3개\n3. 어떤 사건이나 이슈를 다루고 있는지\n4. 이 뉴스들이 시사하는 사회적/경제적/정치적 맥락\n", att)

/-- Embedding of the `search_news_with_content` tool (`main.py` lines
314-406): same network oracle; `extractFn` gives the string
`extract_article_content` produces for each article link (every
per-article failure is already inline text, so extraction never raises).
All exceptions of the request/processing block, including JSON errors,
are caught by the single generic handler. -/
def search_news_with_content (keyword : String) (backend : Nat → Attempt ParsedBody)
    (extractFn : String → String) : String × Nat :=
  if kwBlank keyword then ("검색어를 입력해주세요.", 0)
  else
    let kw := stripPy keyword
    match make_request_with_retry backend MAX_RETRIES with
    | none => ("뉴스 검색 및 내용 가져오기 중 오류가 발생했습니다: NoneType", 0)
    | some (.error f, att, _) =>
      ("뉴스 검색 및 내용 가져오기 중 오류가 발생했습니다: " ++ failureText f, att)
    | some (.ok body, att, _) =>
      match body with
      | .invalidJson msg => ("뉴스 검색 및 내용 가져오기 중 오류가 발생했습니다: " ++ msg, att)
      | .notDict msg => ("뉴스 검색 및 내용 가져오기 중 오류가 발생했습니다: " ++ msg, att)
      | .noItems => ("'" ++ kw ++ "'에 대한 검색 결과가 없습니다.", att)
      | .items its total =>
        match its with
        | [] => ("'" ++ kw ++ "'에 대한 검색 결과가 없습니다.", att)
        | _ :: _ =>
          ("\"" ++ kw ++ "\"에 관한 뉴스 " ++ pyStr (total.getD its.length) ++
             "건 중 " ++ pyStr its.length ++ "건의 제목과 내용을 찾았습니다.\n\n" ++
             ("\n\n" ++ joinPy "\n\n" (contentBlocks its extractFn)) ++
             "\n\n이 뉴스들의 상세 내용을 바탕으로 다음 사항을 분석해주세요:\n1. 주요 사건/이슈 요약 (5-6문장)\n2. 핵심 인물, 기관, 장소\n3. 각 언론사별 보도 관점 차이\n4. 사회적/경제적/정치적 맥락과 영향\n5. 향후 전개 가능성\n", att)

/-- The perspective-comparison instruction appended by
`compare_news_perspectives`. -/
def compareSuffix : String :=
  "\n\n특히 각 언론사별 보도 관점과 프레임의 차이점을 중점적으로 분석해 주세요."

/-- Embedding of the `compare_news_perspectives` tool (`main.py` lines
408-432): delegates to `search_news_with_content` and appends the fixed
instruction to whatever it returned. -/
def compare_news_perspectives (keyword : String) (backend : Nat → Attempt ParsedBody)
    (extractFn : String → String) : String × Nat :=
  let r := search_news_with_content keyword backend extractFn
  (r.1 ++ compareSuffix, r.2)

/-- A 1004-character text used to exercise the truncation branch. -/
def longText : String := String.mk (List.replicate 1004 'a')

theorem data_append (a b : String) : (a ++ b).data = a.data ++ b.data := rfl

theorem strLength_append (a b : String) : (a ++ b).length = a.length + b.length :=
  List.length_append a.data b.data

theorem pyTakeStr_length (s : String) (n : Nat) :
    (pyTakeStr s n).length = min n s.length := by
  show (s.data.take n).length = min n s.data.length
  simp [List.length_take]

theorem pyTakeStr_all (s : String) (n : Nat) (h : s.length ≤ n) : pyTakeStr s n = s := by
  show String.mk (s.data.take n) = s
  rw [List.take_of_length_le h]

theorem strAppend_empty (s : String) : s ++ "" = s := by
  show String.mk (s.data ++ []) = s
  rw [List.append_nil]

theorem charWs_a : charWs 'a' = false := rfl

theorem subWs_replicate (n : Nat) (b : Bool) :
    subWsAux (List.replicate n 'a') b = List.replicate n 'a' := by
  induction n generalizing b with
  | zero => rfl
  | succ k ih => simp [List.replicate_succ, subWsAux, charWs_a, ih]

theorem dropWhile_replicate_a (n : Nat) :
    List.dropWhile charWs (List.replicate n 'a') = List.replicate n 'a' := by
  cases n with
  | zero => rfl
  | succ k => simp [List.replicate_succ, List.dropWhile_cons, charWs_a]

theorem trim_replicate_a (n : Nat) :
    trimChars (List.replicate n 'a') = List.replicate n 'a' := by
  unfold trimChars
  rw [dropWhile_replicate_a, List.reverse_replicate, dropWhile_replicate_a,
    List.reverse_replicate]

theorem normalizeWs_longText : normalizeWs longText = longText := by
  show String.mk (trimChars (subWsAux (List.replicate 1004 'a') false)) = longText
  rw [subWs_replicate, trim_replicate_a]
  rfl

theorem longText_length : longText.length = 1004 := by
  show (List.replicate 1004 'a').length = 1004
  rw [List.length_replicate]

theorem postProcess_length_le (t : String) :
    (postProcess t).length ≤ MAX_CONTENT_LENGTH + 3 := by
  unfold postProcess truncateContent
  split
  · rw [strLength_append, pyTakeStr_length]
    have h3 : ("..." : String).length = 3 := rfl
    have hm := Nat.min_le_left MAX_CONTENT_LENGTH (normalizeWs t).length
    omega
  · rw [strLength_append, pyTakeStr_length]
    have h0 : ("" : String).length = 0 := rfl
    have hm := Nat.min_le_left MAX_CONTENT_LENGTH (normalizeWs t).length
    omega

theorem reqLoop_ok {α : Type} (backend : Nat → Attempt α) (b : α) :
    ∀ (d rem att sl : Nat), d < rem →
      (∀ j, j < d → retryAttempt (backend (att + j)) = true) →
      backend (att + d) = .ok b →
      reqLoop backend att sl rem = some (.ok b, att + d + 1, sl + d) := by
  intro d
  induction d with
  | zero =>
    intro rem att sl hrem _ hb
    cases rem with
    | zero => omega
    | succ r =>
      rw [Nat.add_zero] at hb
      simp [reqLoop, hb]
  | succ d ih =>
    intro rem att sl hrem hret hb
    cases rem with
    | zero => omega
    | succ r =>
      have h0 : retryAttempt (backend att) = true := by
        have := hret 0 (by omega)
        rwa [Nat.add_zero] at this
      cases hba : backend att with
      | ok v => rw [hba] at h0; simp [retryAttempt] at h0
      | fail f =>
        rw [hba] at h0
        have hf : retryableFailure f = true := h0
        have hr : 0 < r := by omega
        have hstep : reqLoop backend att sl (r + 1) =
            reqLoop backend (att + 1) (sl + 1) r := by
          simp [reqLoop, hba, hf, hr]
        rw [hstep]
        have hret' : ∀ j, j < d → retryAttempt (backend (att + 1 + j)) = true := by
          intro j hj
          have := hret (j + 1) (by omega)
          rwa [show att + (j + 1) = att + 1 + j by omega] at this
        have hb' : backend (att + 1 + d) = .ok b := by
          rwa [show att + (d + 1) = att + 1 + d by omega] at hb
        have := ih r (att + 1) (sl + 1) (by omega) hret' hb'
        rw [this]
        rw [show att + 1 + d + 1 = att + (d + 1) + 1 by omega,
          show sl + 1 + d = sl + (d + 1) by omega]

theorem reqLoop_stop {α : Type} (backend : Nat → Attempt α) (f : Failure) :
    ∀ (d rem att sl : Nat), d < rem →
      (∀ j, j < d → retryAttempt (backend (att + j)) = true) →
      backend (att + d) = .fail f → retryableFailure f = false →
      reqLoop backend att sl rem = some (.error f, att + d + 1, sl + d) := by
  intro d
  induction d with
  | zero =>
    intro rem att sl hrem _ hb hnf
    cases rem with
    | zero => omega
    | succ r =>
      rw [Nat.add_zero] at hb
      simp [reqLoop, hb, hnf]
  | succ d ih =>
    intro rem att sl hrem hret hb hnf
    cases rem with
    | zero => omega
    | succ r =>
      have h0 : retryAttempt (backend att) = true := by
        have := hret 0 (by omega)
        rwa [Nat.add_zero] at this
      cases hba : backend att with
      | ok v => rw [hba] at h0; simp [retryAttempt] at h0
      | fail f0 =>
        rw [hba] at h0
        have hf0 : retryableFailure f0 = true := h0
        have hr : 0 < r := by omega
        have hstep : reqLoop backend att sl (r + 1) =
            reqLoop backend (att + 1) (sl + 1) r := by
          simp [reqLoop, hba, hf0, hr]
        rw [hstep]
        have hret' : ∀ j, j < d → retryAttempt (backend (att + 1 + j)) = true := by
          intro j hj
          have := hret (j + 1) (by omega)
          rwa [show att + (j + 1) = att + 1 + j by omega] at this
        have hb' : backend (att + 1 + d) = .fail f := by
          rwa [show att + (d + 1) = att + 1 + d by omega] at hb
        have := ih r (att + 1) (sl + 1) (by omega) hret' hb' hnf
        rw [this]
        rw [show att + 1 + d + 1 = att + (d + 1) + 1 by omega,
          show sl + 1 + d = sl + (d + 1) by omega]

theorem reqLoop_exhaust {α : Type} (backend : Nat → Attempt α) :
    ∀ (rem att sl : Nat), 0 < rem →
      (∀ j, j < rem → retryAttempt (backend (att + j)) = true) →
      ∃ f, backend (att + (rem - 1)) = .fail f ∧
        reqLoop backend att sl rem = some (.error f, att + rem, sl + (rem - 1)) := by
  intro rem
  induction rem with
  | zero => intro att sl h; omega
  | succ r ih =>
    intro att sl _ hret
    have h0 : retryAttempt (backend att) = true := by
      have := hret 0 (by omega)
      rwa [Nat.add_zero] at this
    cases hba : backend att with
    | ok v => rw [hba] at h0; simp [retryAttempt] at h0
    | fail f0 =>
      rw [hba] at h0
      have hf0 : retryableFailure f0 = true := h0
      cases r with
      | zero =>
        refine ⟨f0, by simpa using hba, ?_⟩
        simp [reqLoop, hba, hf0]
      | succ r' =>
        have hstep : reqLoop backend att sl (r' + 1 + 1) =
            reqLoop backend (att + 1) (sl + 1) (r' + 1) := by
          simp [reqLoop, hba, hf0]
        have hret' : ∀ j, j < r' + 1 → retryAttempt (backend (att + 1 + j)) = true := by
          intro j hj
          have := hret (j + 1) (by omega)
          rwa [show att + (j + 1) = att + 1 + j by omega] at this
        obtain ⟨f, hbf, hloop⟩ := ih (att + 1) (sl + 1) (by omega) hret'
        refine ⟨f, ?_, ?_⟩
        · rwa [show att + 1 + (r' + 1 - 1) = att + (r' + 1 + 1 - 1) by omega] at hbf
        · rw [hstep, hloop]
          rw [show att + 1 + (r' + 1) = att + (r' + 1 + 1) by omega,
            show sl + 1 + (r' + 1 - 1) = sl + (r' + 1 + 1 - 1) by omega]

/-- C1: for every backend and every `maxAttempts = N ≥ 1`,
`make_request_with_retry` (1) returns the response of the first successful
attempt when every earlier attempt failed retryably (timeout, transport
error, or HTTP 429/5xx), surfacing no earlier failure; (2) surfaces a
non-retryable failure (any other non-2xx status) immediately after the
attempt that produced it, with no further retry; and (3) when all `N`
attempts fail retryably, makes exactly `N` attempts, sleeping the fixed
delay `N - 1` times between attempts, and surfaces the last failure. -/
theorem make_request_with_retry_spec {α : Type} (backend : Nat → Attempt α)
    (N : Nat) (hN : 1 ≤ N) :
    (∀ i b, i < N → (∀ j, j < i → retryAttempt (backend j) = true) →
      backend i = .ok b →
      make_request_with_retry backend N = some (.ok b, i + 1, i)) ∧
    (∀ i f, i < N → (∀ j, j < i → retryAttempt (backend j) = true) →
      backend i = .fail f → retryableFailure f = false →
      make_request_with_retry backend N = some (.error f, i + 1, i)) ∧
    ((∀ j, j < N → retryAttempt (backend j) = true) →
      ∃ f, backend (N - 1) = .fail f ∧
        make_request_with_retry backend N = some (.error f, N, N - 1)) := by
  refine ⟨?_, ?_, ?_⟩
  · intro i b hi hret hb
    have := reqLoop_ok backend b i N 0 0 hi
      (by intro j hj; simpa using hret j hj) (by simpa using hb)
    simpa using this
  · intro i f hi hret hb hnf
    have := reqLoop_stop backend f i N 0 0 hi
      (by intro j hj; simpa using hret j hj) (by simpa using hb) hnf
    simpa using this
  · intro hret
    obtain ⟨f, hbf, hloop⟩ := reqLoop_exhaust backend N 0 0 (by omega)
      (by intro j hj; simpa using hret j hj)
    exact ⟨f, by simpa using hbf, by simpa using hloop⟩

/-- A backend that times out twice and then succeeds. -/
def cbTimeoutTwice : Nat → Attempt Nat :=
  fun j => if j < 2 then Attempt.fail Failure.timeout else Attempt.ok 7

/-- A backend that always returns HTTP 404. -/
def cb404 : Nat → Attempt Nat :=
  fun _ => Attempt.fail (Failure.status 404)

theorem make_request_with_retry_spec_witness :
    make_request_with_retry cbTimeoutTwice 3 = some (.ok 7, 3, 2) ∧
    make_request_with_retry cb404 3 = some (.error (.status 404), 1, 0) := by
  constructor
  · exact (make_request_with_retry_spec cbTimeoutTwice 3 (by decide)).1 2 7 (by decide)
      (by intro j hj; interval_cases j <;> rfl) rfl
  · exact (make_request_with_retry_spec cb404 3 (by decide)).2.1 0 (.status 404)
      (by decide) (by intro j hj; omega) rfl rfl

theorem truncate_spec (s : String) :
    (s.length ≤ MAX_CONTENT_LENGTH → truncateContent s = s) ∧
    (MAX_CONTENT_LENGTH < s.length →
      truncateContent s = pyTakeStr s MAX_CONTENT_LENGTH ++ "...") := by
  constructor
  · intro h
    unfold truncateContent
    rw [if_neg (Nat.not_lt.mpr h), pyTakeStr_all s MAX_CONTENT_LENGTH h, strAppend_empty]
  · intro h
    unfold truncateContent
    rw [if_pos h]

/-- C3: the body returned for a successful strategy's text is the text
with all whitespace runs collapsed and ends trimmed; when that normalized
text exceeds `MAX_CONTENT_LENGTH` the body is exactly its
`MAX_CONTENT_LENGTH`-character prefix followed by the `"..."` marker, and
otherwise it is the normalized text unchanged, with no marker. -/
theorem postProcess_spec (t : String) :
    ((normalizeWs t).length ≤ MAX_CONTENT_LENGTH → postProcess t = normalizeWs t) ∧
    (MAX_CONTENT_LENGTH < (normalizeWs t).length →
      postProcess t = pyTakeStr (normalizeWs t) MAX_CONTENT_LENGTH ++ "...") := by
  constructor
  · intro h; exact (truncate_spec (normalizeWs t)).1 h
  · intro h; exact (truncate_spec (normalizeWs t)).2 h

theorem normalizeWs_longText_length : (normalizeWs longText).length = 1004 := by
  rw [normalizeWs_longText, longText_length]

theorem postProcess_longText : postProcess longText = pyTakeStr longText MAX_CONTENT_LENGTH ++ "..." := by
  unfold postProcess
  rw [normalizeWs_longText]
  exact (truncate_spec longText).2 (by rw [longText_length]; decide)

theorem postProcess_longText_length : (postProcess longText).length = 1003 := by
  rw [postProcess_longText, strLength_append, pyTakeStr_length, longText_length]
  have h3 : ("..." : String).length = 3 := rfl
  rw [h3]
  decide

theorem postProcess_spec_witness :
    postProcess "  hello   world  " = "hello world" ∧
    postProcess longText = pyTakeStr longText MAX_CONTENT_LENGTH ++ "..." := by
  constructor
  · have h := (postProcess_spec "  hello   world  ").1 (by decide)
    rw [h]; decide
  · have h := (postProcess_spec longText).2
      (by rw [normalizeWs_longText_length]; decide)
    rw [h, normalizeWs_longText]

theorem postProcess_length_bound (t : String) :
    (postProcess t).length ≤ MAX_CONTENT_LENGTH + 3 := postProcess_length_le t

theorem extractGeneric_length_bound (s : Soup) :
    (extractGeneric s).length ≤ MAX_CONTENT_LENGTH + 3 := by
  unfold extractGeneric
  split
  · exact postProcess_length_le _
  · split
    · decide
    · exact postProcess_length_le _

/-- C5 (as stated, refuted): a 1004-character Naver article body yields a
returned body of length 1003, which exceeds `MAX_CONTENT_LENGTH = 1000`. -/
theorem extract_content_length_counterexample :
    MAX_CONTENT_LENGTH <
      (extract_article_content "https://news.naver.com/a"
        (.ok { naverBody := some longText, genericBodies := [], paragraphs := [] })).length := by
  have hurl : containsPy "https://news.naver.com/a" "news.naver.com" = true := by decide
  have h1 : extract_article_content "https://news.naver.com/a"
      (.ok { naverBody := some longText, genericBodies := [], paragraphs := [] }) =
      postProcess longText := by
    simp [extract_article_content, hurl]
  rw [h1, postProcess_longText_length]
  decide

/-- C5 (amended): for every fetched and parsed document the returned body
has length at most `MAX_CONTENT_LENGTH + 3`, the three extra characters
being the `"..."` truncation marker. -/
theorem extract_content_length_bound (url : String) (soup : Soup) :
    (extract_article_content url (Except.ok soup)).length ≤ MAX_CONTENT_LENGTH + 3 := by
  show (if containsPy url "news.naver.com" = true then
      match soup.naverBody with
      | some t => postProcess t
      | none => extractGeneric soup
    else extractGeneric soup).length ≤ MAX_CONTENT_LENGTH + 3
  split
  · split
    · exact postProcess_length_le _
    · exact extractGeneric_length_bound soup
  · exact extractGeneric_length_bound soup

/-- C2 (as stated, refuted): on a Naver URL whose known-publisher selector
matches an element with empty text, the empty string is returned even
though the generic-container strategy would yield non-empty text — the
first strategy whose selector matches wins, not the first one yielding
non-empty text. -/
theorem extract_cascade_counterexample :
    extract_article_content "https://news.naver.com/a"
      (.ok { naverBody := some "", genericBodies := ["기사 본문 내용"], paragraphs := [] }) = ""
    ∧ postProcess "기사 본문 내용" ≠ "" := by
  constructor
  · decide
  · decide

/-- C2 (amended): the strategies are tried in strict priority order, but
each strategy is decided by whether its selector matches an element, not
by whether its text is non-empty: a Naver URL whose known-publisher
selector finds an element returns that element's post-processed text even
when it is empty; otherwise the first generic container match is used;
otherwise, when any `p` elements exist, the post-processed join of the
paragraph texts longer than 50 characters is used (possibly empty); the
fixed sentinel is returned only when no selector matches at all. -/
theorem extract_cascade_spec (url : String) (soup : Soup) :
    (containsPy url "news.naver.com" = true → ∀ t, soup.naverBody = some t →
      extract_article_content url (.ok soup) = postProcess t) ∧
    ((containsPy url "news.naver.com" = false ∨ soup.naverBody = none) →
      ∀ t rest, soup.genericBodies = t :: rest →
      extract_article_content url (.ok soup) = postProcess t) ∧
    ((containsPy url "news.naver.com" = false ∨ soup.naverBody = none) →
      soup.genericBodies = [] → ∀ p ps, soup.paragraphs = p :: ps →
      extract_article_content url (.ok soup) =
        postProcess (joinPy " " ((p :: ps).filter (fun q => decide (50 < q.length))))) ∧
    ((containsPy url "news.naver.com" = false ∨ soup.naverBody = none) →
      soup.genericBodies = [] → soup.paragraphs = [] →
      extract_article_content url (.ok soup) = "본문 내용을 추출할 수 없습니다.") := by
  refine ⟨?_, ?_, ?_, ?_⟩
  · intro hurl t ht
    simp [extract_article_content, hurl, ht]
  · intro hside t rest hgb
    rcases hside with hurl | hnv
    · simp [extract_article_content, hurl, extractGeneric, hgb]
    · cases hu : containsPy url "news.naver.com" <;>
        simp [extract_article_content, hu, hnv, extractGeneric, hgb]
  · intro hside hgb p ps hpar
    rcases hside with hurl | hnv
    · simp [extract_article_content, hurl, extractGeneric, hgb, hpar]
    · cases hu : containsPy url "news.naver.com" <;>
        simp [extract_article_content, hu, hnv, extractGeneric, hgb, hpar]
  · intro hside hgb hpar
    rcases hside with hurl | hnv
    · simp [extract_article_content, hurl, extractGeneric, hgb, hpar]
    · cases hu : containsPy url "news.naver.com" <;>
        simp [extract_article_content, hu, hnv, extractGeneric, hgb, hpar]

theorem extract_cascade_spec_witness :
    extract_article_content "https://news.naver.com/art/1"
      (.ok { naverBody := some "네이버 본문", genericBodies := ["다른 본문"], paragraphs := [] }) =
      postProcess "네이버 본문" :=
  (extract_cascade_spec "https://news.naver.com/art/1"
    { naverBody := some "네이버 본문", genericBodies := ["다른 본문"], paragraphs := [] }).1
    (by decide) "네이버 본문" rfl

theorem digitChar_digit : ∀ d : Nat, isDigitC (digitChar d) = true
  | 0 => rfl | 1 => rfl | 2 => rfl | 3 => rfl | 4 => rfl
  | 5 => rfl | 6 => rfl | 7 => rfl | 8 => rfl | 9 => rfl
  | _ + 10 => rfl

theorem natDigitsAux_head (fuel n : Nat) :
    ∃ c cs, natDigitsAux (fuel + 1) n = c :: cs ∧ isDigitC c = true := by
  induction fuel generalizing n with
  | zero =>
    by_cases h : n < 10
    · exact ⟨digitChar n, [], by simp [natDigitsAux, h], digitChar_digit n⟩
    · refine ⟨digitChar (n % 10), [], ?_, digitChar_digit _⟩
      simp [natDigitsAux, h]
  | succ f ih =>
    by_cases h : n < 10
    · exact ⟨digitChar n, [], by simp [natDigitsAux, h], digitChar_digit n⟩
    · obtain ⟨c, cs, hc, hd⟩ := ih (n / 10)
      refine ⟨c, cs ++ [digitChar (n % 10)], ?_, hd⟩
      rw [natDigitsAux, if_neg h, hc, List.cons_append]

theorem padZeros_head (w n : Nat) :
    ∃ c cs, padZeros w (natDigits n) = c :: cs ∧ isDigitC c = true := by
  unfold padZeros natDigits
  cases hk : w - (natDigitsAux (n + 1) n).length with
  | zero =>
    obtain ⟨c, cs, hc, hd⟩ := natDigitsAux_head n n
    exact ⟨c, cs, by rw [hc]; rfl, hd⟩
  | succ k =>
    refine ⟨'0', List.replicate k '0' ++ natDigitsAux (n + 1) n, ?_, rfl⟩
    rw [List.replicate_succ, List.cons_append]

theorem formatDT_head (dt : PyDateTime) :
    ∃ c cs, (formatDT dt).data = c :: cs ∧ isDigitC c = true := by
  obtain ⟨c, cs, hc, hd⟩ := padZeros_head 4 dt.year
  refine ⟨c, cs ++ formatTail dt, ?_, hd⟩
  show padZeros 4 (natDigits dt.year) ++ formatTail dt = c :: (cs ++ formatTail dt)
  rw [hc, List.cons_append]

theorem stripLit_digit_none (w : Char) (ws : List Char) (c : Char) (cs : List Char)
    (hdig : isDigitC c = true) (hw : isDigitC w = false) :
    stripLit (w :: ws) (c :: cs) = none := by
  have hwc : (w == c) = false := by
    cases h : w == c
    · rfl
    · have := eq_of_beq h
      subst this
      rw [hdig] at hw
      exact hw
  simp [stripLit, hwc]

theorem parseNaverDate_formatDT (dt : PyDateTime) : parseNaverDate (formatDT dt) = none := by
  obtain ⟨c, cs, hdata, hd⟩ := formatDT_head dt
  have w1 : stripLit "Mon".data (c :: cs) = none := stripLit_digit_none _ _ _ _ hd rfl
  have w2 : stripLit "Tue".data (c :: cs) = none := stripLit_digit_none _ _ _ _ hd rfl
  have w3 : stripLit "Wed".data (c :: cs) = none := stripLit_digit_none _ _ _ _ hd rfl
  have w4 : stripLit "Thu".data (c :: cs) = none := stripLit_digit_none _ _ _ _ hd rfl
  have w5 : stripLit "Fri".data (c :: cs) = none := stripLit_digit_none _ _ _ _ hd rfl
  have w6 : stripLit "Sat".data (c :: cs) = none := stripLit_digit_none _ _ _ _ hd rfl
  have w7 : stripLit "Sun".data (c :: cs) = none := stripLit_digit_none _ _ _ _ hd rfl
  unfold parseNaverDate
  rw [hdata]
  simp [tryLits, weekdayLits, w1, w2, w3, w4, w5, w6, w7]

/-- C8: `format_date` reformats a timestamp that parses in the upstream
API's fixed format to `YYYY-MM-DD HH:MM`, returns any other input
unchanged without failing, and is consequently idempotent. -/
theorem format_date_spec (s : String) :
    (∀ dt, parseNaverDate s = some dt → format_date s = formatDT dt) ∧
    (parseNaverDate s = none → format_date s = s) ∧
    format_date (format_date s) = format_date s := by
  refine ⟨?_, ?_, ?_⟩
  · intro dt h
    unfold format_date
    rw [h]
  · intro h
    unfold format_date
    rw [h]
  · cases h : parseNaverDate s with
    | none =>
      have hs : format_date s = s := by unfold format_date; rw [h]
      rw [hs]
      exact hs
    | some dt =>
      have hs : format_date s = formatDT dt := by unfold format_date; rw [h]
      rw [hs]
      unfold format_date
      rw [parseNaverDate_formatDT]

theorem format_date_spec_witness :
    format_date "Mon, 06 May 2025 10:30:00 +0900" = "2025-05-06 10:30" ∧
    format_date (format_date "Mon, 06 May 2025 10:30:00 +0900") =
      format_date "Mon, 06 May 2025 10:30:00 +0900" := by
  constructor
  · have h := (format_date_spec "Mon, 06 May 2025 10:30:00 +0900").1
      { year := 2025, month := 5, day := 6, hour := 10, minute := 30 } (by decide)
    rw [h]
    decide
  · exact (format_date_spec "Mon, 06 May 2025 10:30:00 +0900").2.2

/-- C7 (as stated, refuted): a title whose trailing " - " segment is blank
makes `extract_publisher` return the empty string, contradicting the
claimed "never the empty string". -/
theorem extract_publisher_counterexample :
    extract_publisher { title := some "속보 - ", link := some "https://example.com/a",
                        description := none, pubDate := none } = "" := by
  decide

/-- C7 (amended): `extract_publisher` tries, in order — (a) if the title
contains " - ", the trailing segment trimmed; (b) else if the link is
non-empty, its domain contains the aggregator portal and the description
contains the "출처 : " marker, the text between the first two marker
occurrences, trimmed; (c) else, for a non-empty link, the link's domain
with every occurrence of "www." removed (not only a leading prefix);
(d) else the unknown-publisher sentinel.  The result can be the empty
string (e.g. a blank trailing title segment, or an empty domain). -/
theorem extract_publisher_spec (item : Item) :
    (containsPy (item.title.getD "") " - " = true →
      extract_publisher item = stripPy ((splitPy (item.title.getD "") " - ").getLastD "")) ∧
    (containsPy (item.title.getD "") " - " = false → item.link.getD "" ≠ "" →
      containsPy (netloc (item.link.getD "")) "news.naver.com" = true →
      containsPy (item.description.getD "") "출처 : " = true →
      extract_publisher item =
        stripPy ((splitPy (item.description.getD "") "출처 : ").getD 1 "")) ∧
    (containsPy (item.title.getD "") " - " = false → item.link.getD "" ≠ "" →
      (containsPy (netloc (item.link.getD "")) "news.naver.com" = false ∨
        containsPy (item.description.getD "") "출처 : " = false) →
      extract_publisher item = replacePy (netloc (item.link.getD "")) "www." "") ∧
    (containsPy (item.title.getD "") " - " = false → item.link.getD "" = "" →
      extract_publisher item = "알 수 없는 언론사") := by
  refine ⟨?_, ?_, ?_, ?_⟩
  · intro ht
    simp [extract_publisher, ht]
  · intro ht hl hn hm
    simp [extract_publisher, ht, hl, hn, hm]
  · intro ht hl hside
    rcases hside with hn | hm
    · simp [extract_publisher, ht, hl, hn]
    · cases hn : containsPy (netloc (item.link.getD "")) "news.naver.com" <;>
        simp [extract_publisher, ht, hl, hn, hm]
  · intro ht hl
    simp [extract_publisher, ht, hl]

theorem extract_publisher_spec_witness :
    extract_publisher { title := some "제목입니다", link := some "https://news.naver.com/mnews/1",
                        description := some "내용입니다 출처 : 연합뉴스", pubDate := none } =
      "연합뉴스" := by
  have h := (extract_publisher_spec
    { title := some "제목입니다", link := some "https://news.naver.com/mnews/1",
      description := some "내용입니다 출처 : 연합뉴스", pubDate := none }).2.1
    (by decide) (by decide) (by decide) (by decide)
  rw [h]
  decide

theorem newsBlocksAux_length (items : List Item) :
    ∀ j, (newsBlocksAux j items).length = items.length := by
  induction items with
  | nil => intro j; rfl
  | cons hd tl ih => intro j; simp [newsBlocksAux, ih]

theorem newsBlocksAux_get (items : List Item) :
    ∀ j i it, items.get? i = some it →
      (newsBlocksAux j items).get? i = some (newsBlock (j + i) it) := by
  induction items with
  | nil => intro j i it h; simp at h
  | cons hd tl ih =>
    intro j i it h
    cases i with
    | zero =>
      have : hd = it := by simpa using h
      subst this
      rfl
    | succ n =>
      have h' : tl.get? n = some it := h
      rw [show (newsBlocksAux j (hd :: tl)).get? (n + 1) =
        (newsBlocksAux (j + 1) tl).get? n from rfl]
      rw [ih (j + 1) n it h', show j + (n + 1) = j + 1 + n by omega]

theorem contentBlocksAux_length (ps : List (Item × String)) :
    ∀ j, (contentBlocksAux j ps).length = ps.length := by
  induction ps with
  | nil => intro j; rfl
  | cons hd tl ih =>
    intro j
    rw [show contentBlocksAux j (hd :: tl) =
      contentBlock j hd.1 hd.2 :: contentBlocksAux (j + 1) tl from rfl]
    simp [ih]

theorem contentBlocksAux_get (ps : List (Item × String)) :
    ∀ j i p, ps.get? i = some p →
      (contentBlocksAux j ps).get? i = some (contentBlock (j + i) p.1 p.2) := by
  induction ps with
  | nil => intro j i p h; simp at h
  | cons hd tl ih =>
    intro j i p h
    cases i with
    | zero =>
      have : hd = p := by simpa using h
      subst this
      rfl
    | succ n =>
      have h' : tl.get? n = some p := h
      rw [show (contentBlocksAux j (hd :: tl)).get? (n + 1) =
        (contentBlocksAux (j + 1) tl).get? n from rfl]
      rw [ih (j + 1) n p h', show j + (n + 1) = j + 1 + n by omega]

theorem zip_map_get (items : List Item) (g : Item → String) :
    ∀ i it, items.get? i = some it →
      (items.zip (items.map g)).get? i = some (it, g it) := by
  induction items with
  | nil => intro i it h; simp at h
  | cons hd tl ih =>
    intro i it h
    cases i with
    | zero =>
      have : hd = it := by simpa using h
      subst this
      rfl
    | succ n =>
      have h' : tl.get? n = some it := h
      exact ih n it h'

theorem isPreOf_append (a b c : List Char) :
    isPreOf (a ++ b) (a ++ c) = isPreOf b c := by
  induction a with
  | nil => rfl
  | cons x xs ih => simp [isPreOf, ih]

theorem newsBlock_numbered (i : Nat) (it : Item) :
    isPreOf (pyStr (i + 1) ++ ". ").data (newsBlock i it).data = true := by
  show isPreOf ((pyStr (i + 1)).data ++ ". ".data) (newsBlock i it).data = true
  have hb : (newsBlock i it).data = (pyStr (i + 1)).data ++
      (". [언론사] ".data ++ (extract_publisher it ++ "\n   [제목] " ++
        stripBold (it.title.getD "제목 없음") ++ "\n   [시간] " ++
        format_date (it.pubDate.getD "날짜 정보 없음") ++ "\n   [링크] " ++
        it.link.getD "#").data) := by
    simp [newsBlock, data_append, List.append_assoc]
  rw [hb, isPreOf_append]
  rfl

theorem contentBlock_numbered (i : Nat) (it : Item) (content : String) :
    isPreOf (pyStr (i + 1) ++ ". ").data (contentBlock i it content).data = true := by
  show isPreOf ((pyStr (i + 1)).data ++ ". ".data) (contentBlock i it content).data = true
  have hb : (contentBlock i it content).data = (pyStr (i + 1)).data ++
      (". [언론사] ".data ++ (extract_publisher it ++ "\n   [제목] " ++
        stripBold (it.title.getD "제목 없음") ++ "\n   [시간] " ++
        format_date (it.pubDate.getD "날짜 정보 없음") ++ "\n   [링크] " ++
        it.link.getD "#" ++ "\n   [본문]\n" ++ content).data) := by
    simp [contentBlock, data_append, List.append_assoc]
  rw [hb, isPreOf_append]
  rfl

/-- C4: both tools build exactly one numbered block per upstream item, in
upstream order; each block starts with its 1-based item number, and in
`search_news_with_content` the body attached to block `i` is the
extraction result for item `i`'s own link (the gather joins results back
by original index, not by completion order). -/
theorem result_order_spec (items : List Item) (extractFn : String → String) :
    (newsBlocks items).length = items.length ∧
    (contentBlocks items extractFn).length = items.length ∧
    (∀ i it, items.get? i = some it →
      (newsBlocks items).get? i = some (newsBlock i it) ∧
      (contentBlocks items extractFn).get? i =
        some (contentBlock i it (extractFn (it.link.getD "#"))) ∧
      isPreOf (pyStr (i + 1) ++ ". ").data (newsBlock i it).data = true ∧
      isPreOf (pyStr (i + 1) ++ ". ").data
        (contentBlock i it (extractFn (it.link.getD "#"))).data = true) := by
  refine ⟨newsBlocksAux_length items 0, ?_, ?_⟩
  · unfold contentBlocks
    rw [contentBlocksAux_length]
    simp [gatherContents]
  · intro i it h
    refine ⟨?_, ?_, newsBlock_numbered i it, contentBlock_numbered i it _⟩
    · have := newsBlocksAux_get items 0 i it h
      simpa using this
    · have hz := zip_map_get items (fun x => extractFn (x.link.getD "#")) i it h
      have := contentBlocksAux_get (items.zip
        (items.map (fun x => extractFn (x.link.getD "#")))) 0 i (it, extractFn (it.link.getD "#")) hz
      simpa [contentBlocks, gatherContents] using this

theorem result_order_spec_witness :
    (newsBlocks [{ title := some "제목A", link := some "https://a.example.com/1", description := none, pubDate := none }, { title := some "제목B", link := some "https://b.example.com/2", description := none, pubDate := none }]).get? 1 =
      some (newsBlock 1 { title := some "제목B", link := some "https://b.example.com/2", description := none, pubDate := none }) ∧
    (contentBlocks [{ title := some "제목A", link := some "https://a.example.com/1", description := none, pubDate := none }, { title := some "제목B", link := some "https://b.example.com/2", description := none, pubDate := none }] (fun u => "본문:" ++ u)).get? 1 =
      some (contentBlock 1 { title := some "제목B", link := some "https://b.example.com/2", description := none, pubDate := none } ("본문:" ++ "https://b.example.com/2")) := by
  have h := (result_order_spec
    [{ title := some "제목A", link := some "https://a.example.com/1", description := none, pubDate := none }, { title := some "제목B", link := some "https://b.example.com/2", description := none, pubDate := none }]
    (fun u => "본문:" ++ u)).2.2 1
    { title := some "제목B", link := some "https://b.example.com/2", description := none, pubDate := none } rfl
  exact ⟨h.1, h.2.1⟩

/-- C6 (as stated, refuted): on a whitespace-only keyword,
`compare_news_perspectives` does not return the fixed rejection message —
it returns it with the perspective-comparison suffix appended. -/
theorem blank_keyword_counterexample :
    (compare_news_perspectives " " (fun _ => Attempt.fail Failure.network) (fun _ => "")).1 ≠
      "검색어를 입력해주세요." := by
  decide

/-- C6 (amended): on an empty or whitespace-only keyword, all three tools
make no network attempt; `search_news` and `search_news_with_content`
return exactly the fixed rejection message, while
`compare_news_perspectives` returns that rejection message with the
perspective-comparison suffix appended. -/
theorem blank_keyword_spec (kw : String) (backend : Nat → Attempt ParsedBody)
    (extractFn : String → String) (h : kwBlank kw = true) :
    search_news kw backend = ("검색어를 입력해주세요.", 0) ∧
    search_news_with_content kw backend extractFn = ("검색어를 입력해주세요.", 0) ∧
    compare_news_perspectives kw backend extractFn =
      ("검색어를 입력해주세요." ++ compareSuffix, 0) := by
  refine ⟨by simp [search_news, h], by simp [search_news_with_content, h], ?_⟩
  simp [compare_news_perspectives, search_news_with_content, h]

theorem blank_keyword_spec_witness :
    search_news "   " (fun _ => Attempt.fail Failure.network) = ("검색어를 입력해주세요.", 0) ∧
    compare_news_perspectives "   " (fun _ => Attempt.fail Failure.network) (fun _ => "") =
      ("검색어를 입력해주세요." ++ compareSuffix, 0) := by
  have h := blank_keyword_spec "   " (fun _ => Attempt.fail Failure.network) (fun _ => "")
    (by decide)
  exact ⟨h.1, h.2.2⟩

theorem mrwr_const_ok {α : Type} (b : α) :
    make_request_with_retry (fun _ => Attempt.ok b) MAX_RETRIES = some (.ok b, 1, 0) := rfl

/-- C9 (as stated, refuted): on a response body that is not valid JSON,
`search_news_with_content` does not produce the specific
"could not process results" message of `search_news`; its generic
catch-all handler returns the generic error message with the exception
text appended. -/
theorem malformed_response_counterexample :
    (search_news_with_content "금리"
      (fun _ => Attempt.ok (ParsedBody.invalidJson "Expecting value: line 1 column 1 (char 0)"))
      (fun _ => "")).1 =
      "뉴스 검색 및 내용 가져오기 중 오류가 발생했습니다: Expecting value: line 1 column 1 (char 0)" ∧
    isPreOf "검색 결과를 처리하는 중 오류가 발생했습니다".data
      (search_news_with_content "금리"
        (fun _ => Attempt.ok (ParsedBody.invalidJson "Expecting value: line 1 column 1 (char 0)"))
        (fun _ => "")).1.data = false := by
  constructor
  · decide
  · decide

/-- C9 (amended): for a non-blank keyword, `search_news` maps invalid
JSON, a non-object response and a missing items field to its three
specific "could not process results" messages; `search_news_with_content`
instead surfaces invalid JSON and a non-object response through its
generic catch-all message carrying the exception text, and treats a
missing items field as "no results". -/
theorem malformed_response_spec (kw : String) (h : kwBlank kw = false) (msg : String)
    (extractFn : String → String) :
    search_news kw (fun _ => Attempt.ok (ParsedBody.invalidJson msg)) =
      ("검색 결과를 처리하는 중 오류가 발생했습니다: 잘못된 응답 형식", 1) ∧
    search_news kw (fun _ => Attempt.ok (ParsedBody.notDict msg)) =
      ("검색 결과를 처리하는 중 오류가 발생했습니다: 예상치 못한 응답 형식", 1) ∧
    search_news kw (fun _ => Attempt.ok ParsedBody.noItems) =
      ("검색 결과를 처리하는 중 오류가 발생했습니다: 항목을 찾을 수 없음", 1) ∧
    search_news_with_content kw (fun _ => Attempt.ok (ParsedBody.invalidJson msg)) extractFn =
      ("뉴스 검색 및 내용 가져오기 중 오류가 발생했습니다: " ++ msg, 1) ∧
    search_news_with_content kw (fun _ => Attempt.ok (ParsedBody.notDict msg)) extractFn =
      ("뉴스 검색 및 내용 가져오기 중 오류가 발생했습니다: " ++ msg, 1) ∧
    search_news_with_content kw (fun _ => Attempt.ok ParsedBody.noItems) extractFn =
      ("'" ++ stripPy kw ++ "'에 대한 검색 결과가 없습니다.", 1) := by
  refine ⟨?_, ?_, ?_, ?_, ?_, ?_⟩ <;>
    simp [search_news, search_news_with_content, h, mrwr_const_ok]

theorem malformed_response_spec_witness :
    search_news "금리" (fun _ => Attempt.ok (ParsedBody.invalidJson "Expecting value")) =
      ("검색 결과를 처리하는 중 오류가 발생했습니다: 잘못된 응답 형식", 1) ∧
    search_news_with_content "금리"
      (fun _ => Attempt.ok (ParsedBody.invalidJson "Expecting value")) (fun _ => "") =
      ("뉴스 검색 및 내용 가져오기 중 오류가 발생했습니다: " ++ "Expecting value", 1) := by
  have h := malformed_response_spec "금리" (by decide) "Expecting value" (fun _ => "")
  exact ⟨h.1, h.2.2.2.1⟩

/-- C10: `compare_news_perspectives` returns exactly the string
`search_news_with_content` produced for the same keyword with the fixed
perspective-comparison instruction appended — unconditionally, including
for the blank-keyword rejection message. -/
theorem compare_delegates_spec (kw : String) (backend : Nat → Attempt ParsedBody)
    (extractFn : String → String) :
    compare_news_perspectives kw backend extractFn =
      ((search_news_with_content kw backend extractFn).1 ++ compareSuffix,
        (search_news_with_content kw backend extractFn).2) ∧
    (kwBlank kw = true → (compare_news_perspectives kw backend extractFn).1 =
      "검색어를 입력해주세요." ++ compareSuffix) := by
  constructor
  · rfl
  · intro h
    simp [compare_news_perspectives, search_news_with_content, h]

theorem compare_delegates_spec_witness :
    (compare_news_perspectives "" (fun _ => Attempt.fail Failure.network) (fun _ => "")).1 =
      "검색어를 입력해주세요." ++ compareSuffix :=
  (compare_delegates_spec "" (fun _ => Attempt.fail Failure.network) (fun _ => "")).2 (by decide)
